import Mathlib

/-!
Verification of the Ant Media Server REST client (`src/front/src/app/client.ts`)
against its natural-language specification.

The client is a stateless request-building facade: every method constructs an
HTTP request (method, URL, query parameters, headers, body) and translates
non-2xx responses into error messages.  We embed the request-building and
response-handling logic shallowly: strings stay strings, JS `number` arguments
that are only interpolated into URLs are `Nat`, optional parameters are
`Option`, and the JavaScript truthiness tests (`if (x)`) applied to optional
strings and numbers are modelled explicitly (`none`, the empty string and `0`
are falsy).
-/

namespace AntMediaClient

/-- JavaScript truthiness of an optional string argument: `undefined`/absent
and the empty string are falsy. -/
def jsTruthy : Option String → Bool
  | none => false
  | some s => !(s == "")

/-- JavaScript truthiness of an optional number argument: `undefined`/absent
and `0` are falsy. -/
def jsTruthyNat : Option Nat → Bool
  | none => false
  | some n => !(n == 0)

/-- One transcoding bitrate profile, `{height, videoBitrate, audioBitrate,
forceEncode}` as written by the encoder-bitrate helpers. -/
structure EncoderSetting where
  height : Nat
  videoBitrate : Nat
  audioBitrate : Nat
  forceEncode : Bool
deriving Repr, DecidableEq

/-- The profile object each encoder-bitrate helper writes for a given height. -/
def profileOf (height videoBitrate audioBitrate : Nat) (forceEncode : Bool) :
    EncoderSetting :=
  { height := height, videoBitrate := videoBitrate,
    audioBitrate := audioBitrate, forceEncode := forceEncode }

/-- The application-settings object, restricted to the fields the client reads
or writes.  `encoderSettings` is `none` when the fetched settings object has no
such field (or it is `null`). -/
structure AppSettings where
  encoderSettings : Option (List EncoderSetting)
  mp4MuxingEnabled : Option Bool := none
deriving Repr, DecidableEq

/-- Reading `settings.encoderSettings || []`: the missing-field case is read
as the empty list. -/
def esOrEmpty (s : AppSettings) : List EncoderSetting :=
  s.encoderSettings.getD []

/-- Result of `getEncoderSettings`: fetch the settings and return
`settings.encoderSettings || []`. -/
def getEncoderSettingsResult (settings : AppSettings) : List EncoderSetting :=
  esOrEmpty settings

/-- Result of `getAllEncoderBitrates`, which delegates to `getEncoderSettings`. -/
def getAllEncoderBitratesResult (settings : AppSettings) : List EncoderSetting :=
  getEncoderSettingsResult settings

/-- The local mutation performed by `addEncoderBitrate` between its GET and its
PUT: `findIndex(e => e.height === height)`; replace in place at the found
index, else push. -/
def addEncoderBitrateLocal (es : List EncoderSetting)
    (height videoBitrate audioBitrate : Nat) (forceEncode : Bool) :
    List EncoderSetting :=
  match es.findIdx? (fun e => e.height == height) with
  | some i => es.set i (profileOf height videoBitrate audioBitrate forceEncode)
  | none => es ++ [profileOf height videoBitrate audioBitrate forceEncode]

/-- The local mutation performed by `removeEncoderBitrate`:
`filter(e => e.height !== height)`. -/
def removeEncoderBitrateLocal (es : List EncoderSetting) (height : Nat) :
    List EncoderSetting :=
  es.filter (fun e => !(e.height == height))

/-- The local step of `updateEncoderBitrate`: `findIndex` on the height; if no
profile is found the method throws before any write, else it replaces the
profile at the found index. -/
def updateEncoderBitrateLocal (es : List EncoderSetting)
    (height videoBitrate audioBitrate : Nat) (forceEncode : Bool) :
    Except String (List EncoderSetting) :=
  match es.findIdx? (fun e => e.height == height) with
  | none => .error ("Encoder bitrate profile for height " ++ toString height
      ++ " not found")
  | some i => .ok (es.set i (profileOf height videoBitrate audioBitrate forceEncode))

/-- A settings body PUT back by the client: the encoder helpers send
`{encoderSettings}`, `setMp4RecordingEnabled` sends `{mp4MuxingEnabled}`. -/
inductive SettingsBody where
  | encoder (es : List EncoderSetting)
  | mp4 (b : Bool)
deriving Repr, DecidableEq

/-- Modelled from the spec: the server's `updateSettings` endpoint performs a
field-wise merge, updating only the fields present in the posted body (the server
itself is an external collaborator, not part of this repository). -/
def applySettingsUpdate (s : AppSettings) : SettingsBody → AppSettings
  | .encoder es => { s with encoderSettings := some es }
  | .mp4 b => { s with mp4MuxingEnabled := some b }

/-- Server-state effect of one `addEncoderBitrate` call executed without
interleaving: read the settings, mutate locally, PUT the settings back. -/
def runAddEncoderBitrate (srv : AppSettings)
    (height videoBitrate audioBitrate : Nat) (forceEncode : Bool) : AppSettings :=
  applySettingsUpdate srv
    (.encoder (addEncoderBitrateLocal (esOrEmpty srv)
      height videoBitrate audioBitrate forceEncode))

/-- Server-state effect and outcome of one `updateEncoderBitrate` call: on a
missing height the call throws and the server state is untouched. -/
def runUpdateEncoderBitrate (srv : AppSettings)
    (height videoBitrate audioBitrate : Nat) (forceEncode : Bool) :
    AppSettings × Except String Unit :=
  match updateEncoderBitrateLocal (esOrEmpty srv)
      height videoBitrate audioBitrate forceEncode with
  | .error e => (srv, .error e)
  | .ok es => (applySettingsUpdate srv (.encoder es), .ok ())

/-- Request bodies, kept structured: `JSON.stringify` of the small fixed
objects the client sends, or the multipart form built by `uploadVod`. -/
inductive RequestBody where
  | empty
  | authJson (email password : String)
  | userJson (email password userType : String) (firstName lastName : Option String)
  | broadcastJson (fields : List (String × String))
  | settingsJson (s : SettingsBody)
  | form (file : String) (metadata : Option String)
deriving Repr, DecidableEq

/-- An HTTP request as the client assembles it: method, URL base (path part),
query parameters in append order, headers, body. -/
structure Request where
  method : String
  urlBase : String
  query : List (String × String)
  headers : List (String × String)
  body : RequestBody
deriving Repr, DecidableEq

/-- Headers built by `buildHeaders`: always `Content-Type: application/json`;
adds
`ProxyAuthorization` when the token argument is truthy. -/
def buildHeaders : Option String → List (String × String)
  | none => [("Content-Type", "application/json")]
  | some t =>
    if t == "" then [("Content-Type", "application/json")]
    else [("Content-Type", "application/json"), ("ProxyAuthorization", t)]

/-- One optional query parameter guarded by JS truthiness:
`if (v) url.searchParams.append(key, v)`. -/
def optParam (key : String) (v : Option String) : List (String × String) :=
  match v with
  | none => []
  | some s => if s == "" then [] else [(key, s)]

/-- One optional numeric query parameter guarded by JS truthiness (`0` is
falsy), appended via `toString`. -/
def optParamNat (key : String) (v : Option Nat) : List (String × String) :=
  match v with
  | none => []
  | some n => if n == 0 then [] else [(key, toString n)]

/-- The filter options of `fetchBroadcasts`. -/
structure FetchOptions where
  type_by : Option String := none
  sort_by : Option String := none
  order_by : Option String := none
  search : Option String := none
deriving Repr, DecidableEq

/-- The options of `getVodList`. -/
structure VodListOptions where
  sort_by : Option String := none
  order_by : Option String := none
  streamId : Option String := none
  search : Option String := none
deriving Repr, DecidableEq

/-- The options of `enableRecording`. -/
structure RecordingOptions where
  recordType : Option String := none
  resolutionHeight : Option Nat := none
  fileName : Option String := none
deriving Repr, DecidableEq

/-- Request of `authenticate`: POST `/rest/v2/users/authenticate`, headers
built with no
token, body `{email, password}`. -/
def authenticateRequest (serverUrl email password : String) : Request :=
  { method := "POST"
    urlBase := serverUrl ++ "/rest/v2/users/authenticate"
    query := []
    headers := buildHeaders none
    body := .authJson email password }

/-- Request of `createInitialUser`: POST `/rest/v2/users/initial`;
`firstName` and `lastName`
are added to the body object only when truthy. -/
def createInitialUserRequest (serverUrl email password userType : String)
    (firstName lastName : Option String) : Request :=
  { method := "POST"
    urlBase := serverUrl ++ "/rest/v2/users/initial"
    query := []
    headers := buildHeaders none
    body := .userJson email password userType
      (if jsTruthy firstName then firstName else none)
      (if jsTruthy lastName then lastName else none) }

/-- Request of `createBroadcast`: POST the broadcast object to
`/{appName}/rest/v2/broadcasts/create` with `autoStart` as a query flag. -/
def createBroadcastRequest (serverUrl appName : String)
    (broadcast : List (String × String)) (autoStart : Bool) : Request :=
  { method := "POST"
    urlBase := serverUrl ++ "/" ++ appName ++ "/rest/v2/broadcasts/create"
    query := [("autoStart", if autoStart then "true" else "false")]
    headers := buildHeaders none
    body := .broadcastJson broadcast }

/-- Request of `fetchBroadcasts`: GET
`/{appName}/rest/v2/broadcasts/list/{offset}/{size}`
with each filter appended only when truthy. -/
def fetchBroadcastsRequest (serverUrl appName : String) (offset size : Nat)
    (options : Option FetchOptions) : Request :=
  { method := "GET"
    urlBase := serverUrl ++ "/" ++ appName ++ "/rest/v2/broadcasts/list/"
      ++ toString offset ++ "/" ++ toString size
    query := optParam "type_by" (options.bind FetchOptions.type_by)
      ++ optParam "sort_by" (options.bind FetchOptions.sort_by)
      ++ optParam "order_by" (options.bind FetchOptions.order_by)
      ++ optParam "search" (options.bind FetchOptions.search)
    headers := buildHeaders none
    body := .empty }

/-- Request of `getBroadcast`: GET `/{appName}/rest/v2/broadcasts/{streamId}`. -/
def getBroadcastRequest (serverUrl appName streamId : String) : Request :=
  { method := "GET"
    urlBase := serverUrl ++ "/" ++ appName ++ "/rest/v2/broadcasts/" ++ streamId
    query := []
    headers := buildHeaders none
    body := .empty }

/-- Request of `updateBroadcast`: PUT `/{appName}/rest/v2/broadcasts/{streamId}`. -/
def updateBroadcastRequest (serverUrl appName streamId : String)
    (broadcast : List (String × String)) : Request :=
  { method := "PUT"
    urlBase := serverUrl ++ "/" ++ appName ++ "/rest/v2/broadcasts/" ++ streamId
    query := []
    headers := buildHeaders none
    body := .broadcastJson broadcast }

/-- Request of `deleteBroadcast`: DELETE
`/{appName}/rest/v2/broadcasts/{streamId}`;
`deleteSubtracks=true` is appended only when the flag is true. -/
def deleteBroadcastRequest (serverUrl appName streamId : String)
    (deleteSubtracks : Bool) : Request :=
  { method := "DELETE"
    urlBase := serverUrl ++ "/" ++ appName ++ "/rest/v2/broadcasts/" ++ streamId
    query := if deleteSubtracks then [("deleteSubtracks", "true")] else []
    headers := buildHeaders none
    body := .empty }

/-- Request of `getBroadcastCount`: GET `/{appName}/rest/v2/broadcasts/count`. -/
def getBroadcastCountRequest (serverUrl appName : String) : Request :=
  { method := "GET"
    urlBase := serverUrl ++ "/" ++ appName ++ "/rest/v2/broadcasts/count"
    query := []
    headers := buildHeaders none
    body := .empty }

/-- Request of `getSettings`: GET `/rest/v2/applications/settings/{appName}`,
headers
built with the caller's token. -/
def getSettingsRequest (serverUrl appName : String) (jwtToken : Option String) :
    Request :=
  { method := "GET"
    urlBase := serverUrl ++ "/rest/v2/applications/settings/" ++ appName
    query := []
    headers := buildHeaders jwtToken
    body := .empty }

/-- Request of `updateSettings`: POST
`/rest/v2/applications/settings/{appName}`, headers
built with the caller's token, body the settings object. -/
def updateSettingsRequest (serverUrl appName : String) (settings : SettingsBody)
    (jwtToken : Option String) : Request :=
  { method := "POST"
    urlBase := serverUrl ++ "/rest/v2/applications/settings/" ++ appName
    query := []
    headers := buildHeaders jwtToken
    body := .settingsJson settings }

/-- Request of `setStreamRecording`: PUT
`/{appName}/rest/v2/broadcasts/{streamId}/recording/{enabled}` with each
optional query parameter appended only when truthy. -/
def setStreamRecordingRequest (serverUrl appName streamId : String)
    (enabled : Bool) (recordType : String) (resolutionHeight : Option Nat)
    (fileName : Option String) : Request :=
  { method := "PUT"
    urlBase := serverUrl ++ "/" ++ appName ++ "/rest/v2/broadcasts/" ++ streamId
      ++ "/recording/" ++ (if enabled then "true" else "false")
    query := optParam "recordType" (some recordType)
      ++ optParamNat "resolutionHeight" resolutionHeight
      ++ optParam "fileName" fileName
    headers := buildHeaders none
    body := .empty }

/-- Request of `getVodList`: GET `/{appName}/rest/v2/vods/list/{offset}/{size}`
with each
option appended only when truthy. -/
def getVodListRequest (serverUrl appName : String) (offset size : Nat)
    (options : Option VodListOptions) : Request :=
  { method := "GET"
    urlBase := serverUrl ++ "/" ++ appName ++ "/rest/v2/vods/list/"
      ++ toString offset ++ "/" ++ toString size
    query := optParam "sort_by" (options.bind VodListOptions.sort_by)
      ++ optParam "order_by" (options.bind VodListOptions.order_by)
      ++ optParam "streamId" (options.bind VodListOptions.streamId)
      ++ optParam "search" (options.bind VodListOptions.search)
    headers := buildHeaders none
    body := .empty }

/-- Request of `getVodCount`: GET `/{appName}/rest/v2/vods/count`. -/
def getVodCountRequest (serverUrl appName : String) : Request :=
  { method := "GET"
    urlBase := serverUrl ++ "/" ++ appName ++ "/rest/v2/vods/count"
    query := []
    headers := buildHeaders none
    body := .empty }

/-- Request of `getVodCountBySearch`: GET
`/{appName}/rest/v2/vods/count/{search}` (the
search term is URI-encoded in the source; the encoding itself is not
modelled). -/
def getVodCountBySearchRequest (serverUrl appName search : String) : Request :=
  { method := "GET"
    urlBase := serverUrl ++ "/" ++ appName ++ "/rest/v2/vods/count/" ++ search
    query := []
    headers := buildHeaders none
    body := .empty }

/-- Request of `getVod`: GET `/{appName}/rest/v2/vods/{vodId}`. -/
def getVodRequest (serverUrl appName vodId : String) : Request :=
  { method := "GET"
    urlBase := serverUrl ++ "/" ++ appName ++ "/rest/v2/vods/" ++ vodId
    query := []
    headers := buildHeaders none
    body := .empty }

/-- Request of `deleteVod`: DELETE `/{appName}/rest/v2/vods/{vodId}`. -/
def deleteVodRequest (serverUrl appName vodId : String) : Request :=
  { method := "DELETE"
    urlBase := serverUrl ++ "/" ++ appName ++ "/rest/v2/vods/" ++ vodId
    query := []
    headers := buildHeaders none
    body := .empty }

/-- Request of `deleteVods`: DELETE `/{appName}/rest/v2/vods?ids={comma-joined}`. -/
def deleteVodsRequest (serverUrl appName : String) (vodIds : List String) :
    Request :=
  { method := "DELETE"
    urlBase := serverUrl ++ "/" ++ appName ++ "/rest/v2/vods"
    query := [("ids", String.intercalate "," vodIds)]
    headers := buildHeaders none
    body := .empty }

/-- Request of `unlinkVodDirectory`: DELETE
`/{appName}/rest/v2/vods/directory?directory=`. -/
def unlinkVodDirectoryRequest (serverUrl appName directory : String) : Request :=
  { method := "DELETE"
    urlBase := serverUrl ++ "/" ++ appName ++ "/rest/v2/vods/directory"
    query := [("directory", directory)]
    headers := buildHeaders none
    body := .empty }

/-- Request of `uploadVod`: POST `/{appName}/rest/v2/vods/create?name=` with a
multipart
form body; the fetch options carry NO headers object at all. -/
def uploadVodRequest (serverUrl appName file name : String)
    (metadata : Option String) : Request :=
  { method := "POST"
    urlBase := serverUrl ++ "/" ++ appName ++ "/rest/v2/vods/create"
    query := [("name", name)]
    headers := []
    body := .form file metadata }

/-- Request of `importVodDirectory`: POST
`/{appName}/rest/v2/vods/directory?directory=`. -/
def importVodDirectoryRequest (serverUrl appName directory : String) : Request :=
  { method := "POST"
    urlBase := serverUrl ++ "/" ++ appName ++ "/rest/v2/vods/directory"
    query := [("directory", directory)]
    headers := buildHeaders none
    body := .empty }

/-- Request of `importVodsToStalker`: POST
`/{appName}/rest/v2/vods/import-to-stalker`. -/
def importVodsToStalkerRequest (serverUrl appName : String) : Request :=
  { method := "POST"
    urlBase := serverUrl ++ "/" ++ appName ++ "/rest/v2/vods/import-to-stalker"
    query := []
    headers := buildHeaders none
    body := .empty }

/-- One invocation of a public client method, with the arguments that shape
the requests it issues.  Every method whose TypeScript signature takes a
`jwtToken` argument carries it here (`createInitialUser` takes none). -/
inductive ClientCall where
  | authenticate (serverUrl appName email password : String) (jwtToken : Option String)
  | createInitialUser (serverUrl email password userType : String)
      (firstName lastName : Option String)
  | createBroadcast (serverUrl appName : String)
      (broadcast : List (String × String)) (autoStart : Bool) (jwtToken : Option String)
  | fetchBroadcasts (serverUrl appName : String) (offset size : Nat)
      (options : Option FetchOptions) (jwtToken : Option String)
  | getBroadcast (serverUrl appName streamId : String) (jwtToken : Option String)
  | updateBroadcast (serverUrl appName streamId : String)
      (broadcast : List (String × String)) (jwtToken : Option String)
  | deleteBroadcast (serverUrl appName streamId : String) (deleteSubtracks : Bool)
      (jwtToken : Option String)
  | getBroadcastCount (serverUrl appName : String) (jwtToken : Option String)
  | getSettings (serverUrl appName : String) (jwtToken : Option String)
  | updateSettings (serverUrl appName : String) (settings : SettingsBody)
      (jwtToken : Option String)
  | setMp4RecordingEnabled (serverUrl appName : String) (enabled : Bool)
      (jwtToken : Option String)
  | getEncoderSettings (serverUrl appName : String) (jwtToken : Option String)
  | addEncoderBitrate (serverUrl appName : String)
      (height videoBitrate audioBitrate : Nat) (forceEncode : Bool)
      (jwtToken : Option String)
  | removeEncoderBitrate (serverUrl appName : String) (height : Nat)
      (jwtToken : Option String)
  | getAllEncoderBitrates (serverUrl appName : String) (jwtToken : Option String)
  | updateEncoderBitrate (serverUrl appName : String)
      (height videoBitrate audioBitrate : Nat) (forceEncode : Bool)
      (jwtToken : Option String)
  | setStreamRecording (serverUrl appName streamId : String) (enabled : Bool)
      (recordType : String) (resolutionHeight : Option Nat)
      (fileName : Option String) (jwtToken : Option String)
  | enableRecording (serverUrl appName streamId : String)
      (options : Option RecordingOptions) (jwtToken : Option String)
  | disableRecording (serverUrl appName streamId : String) (jwtToken : Option String)
  | getVodList (serverUrl appName : String) (offset size : Nat)
      (options : Option VodListOptions) (jwtToken : Option String)
  | getVodCount (serverUrl appName : String) (jwtToken : Option String)
  | getVodCountBySearch (serverUrl appName search : String) (jwtToken : Option String)
  | getVod (serverUrl appName vodId : String) (jwtToken : Option String)
  | deleteVod (serverUrl appName vodId : String) (jwtToken : Option String)
  | deleteVods (serverUrl appName : String) (vodIds : List String)
      (jwtToken : Option String)
  | unlinkVodDirectory (serverUrl appName directory : String) (jwtToken : Option String)
  | uploadVod (serverUrl appName file name : String) (metadata : Option String)
      (jwtToken : Option String)
  | importVodDirectory (serverUrl appName directory : String) (jwtToken : Option String)
  | importVodsToStalker (serverUrl appName : String) (jwtToken : Option String)
deriving Repr, DecidableEq

/-- The sequence of HTTP requests a call issues, in order.  `srv` is the
application-settings object the server returns to any settings GET performed
during the call (the compound encoder helpers build their PUT from it, and
`updateEncoderBitrate` throws before its PUT when the height is missing). -/
def requestsOf (c : ClientCall) (srv : AppSettings) : List Request :=
  match c with
  | .authenticate surl _ email password _ => [authenticateRequest surl email password]
  | .createInitialUser surl email password userType fn ln =>
      [createInitialUserRequest surl email password userType fn ln]
  | .createBroadcast surl app b autoStart _ =>
      [createBroadcastRequest surl app b autoStart]
  | .fetchBroadcasts surl app offset size opts _ =>
      [fetchBroadcastsRequest surl app offset size opts]
  | .getBroadcast surl app sid _ => [getBroadcastRequest surl app sid]
  | .updateBroadcast surl app sid b _ => [updateBroadcastRequest surl app sid b]
  | .deleteBroadcast surl app sid del _ => [deleteBroadcastRequest surl app sid del]
  | .getBroadcastCount surl app _ => [getBroadcastCountRequest surl app]
  | .getSettings surl app jwt => [getSettingsRequest surl app jwt]
  | .updateSettings surl app s jwt => [updateSettingsRequest surl app s jwt]
  | .setMp4RecordingEnabled surl app enabled jwt =>
      [updateSettingsRequest surl app (.mp4 enabled) jwt]
  | .getEncoderSettings surl app jwt => [getSettingsRequest surl app jwt]
  | .addEncoderBitrate surl app h v a f jwt =>
      [getSettingsRequest surl app jwt,
       updateSettingsRequest surl app
         (.encoder (addEncoderBitrateLocal (esOrEmpty srv) h v a f)) jwt]
  | .removeEncoderBitrate surl app h jwt =>
      [getSettingsRequest surl app jwt,
       updateSettingsRequest surl app
         (.encoder (removeEncoderBitrateLocal (esOrEmpty srv) h)) jwt]
  | .getAllEncoderBitrates surl app jwt => [getSettingsRequest surl app jwt]
  | .updateEncoderBitrate surl app h v a f jwt =>
      match updateEncoderBitrateLocal (esOrEmpty srv) h v a f with
      | .error _ => [getSettingsRequest surl app jwt]
      | .ok es => [getSettingsRequest surl app jwt,
                   updateSettingsRequest surl app (.encoder es) jwt]
  | .setStreamRecording surl app sid enabled rt rh fn _ =>
      [setStreamRecordingRequest surl app sid enabled rt rh fn]
  | .enableRecording surl app sid opts _ =>
      [setStreamRecordingRequest surl app sid true
        (match opts.bind RecordingOptions.recordType with
         | none => "mp4"
         | some rt => if rt == "" then "mp4" else rt)
        (opts.bind RecordingOptions.resolutionHeight)
        (opts.bind RecordingOptions.fileName)]
  | .disableRecording surl app sid _ =>
      [setStreamRecordingRequest surl app sid false "mp4" none none]
  | .getVodList surl app offset size opts _ =>
      [getVodListRequest surl app offset size opts]
  | .getVodCount surl app _ => [getVodCountRequest surl app]
  | .getVodCountBySearch surl app search _ => [getVodCountBySearchRequest surl app search]
  | .getVod surl app vid _ => [getVodRequest surl app vid]
  | .deleteVod surl app vid _ => [deleteVodRequest surl app vid]
  | .deleteVods surl app vids _ => [deleteVodsRequest surl app vids]
  | .unlinkVodDirectory surl app dir _ => [unlinkVodDirectoryRequest surl app dir]
  | .uploadVod surl app file name md _ => [uploadVodRequest surl app file name md]
  | .importVodDirectory surl app dir _ => [importVodDirectoryRequest surl app dir]
  | .importVodsToStalker surl app _ => [importVodsToStalkerRequest surl app]

/-- The `jwtToken` argument of a call (`none` for `createInitialUser`, whose
signature has no token parameter). -/
def tokenOf : ClientCall → Option String
  | .authenticate _ _ _ _ jwt => jwt
  | .createInitialUser _ _ _ _ _ _ => none
  | .createBroadcast _ _ _ _ jwt => jwt
  | .fetchBroadcasts _ _ _ _ _ jwt => jwt
  | .getBroadcast _ _ _ jwt => jwt
  | .updateBroadcast _ _ _ _ jwt => jwt
  | .deleteBroadcast _ _ _ _ jwt => jwt
  | .getBroadcastCount _ _ jwt => jwt
  | .getSettings _ _ jwt => jwt
  | .updateSettings _ _ _ jwt => jwt
  | .setMp4RecordingEnabled _ _ _ jwt => jwt
  | .getEncoderSettings _ _ jwt => jwt
  | .addEncoderBitrate _ _ _ _ _ _ jwt => jwt
  | .removeEncoderBitrate _ _ _ jwt => jwt
  | .getAllEncoderBitrates _ _ jwt => jwt
  | .updateEncoderBitrate _ _ _ _ _ _ jwt => jwt
  | .setStreamRecording _ _ _ _ _ _ _ jwt => jwt
  | .enableRecording _ _ _ _ jwt => jwt
  | .disableRecording _ _ _ jwt => jwt
  | .getVodList _ _ _ _ _ jwt => jwt
  | .getVodCount _ _ jwt => jwt
  | .getVodCountBySearch _ _ _ jwt => jwt
  | .getVod _ _ _ jwt => jwt
  | .deleteVod _ _ _ jwt => jwt
  | .deleteVods _ _ _ jwt => jwt
  | .unlinkVodDirectory _ _ _ jwt => jwt
  | .uploadVod _ _ _ _ _ jwt => jwt
  | .importVodDirectory _ _ _ jwt => jwt
  | .importVodsToStalker _ _ jwt => jwt

/-- The same call with its `jwtToken` argument replaced (identity for
`createInitialUser`, which has no token parameter). -/
def withToken (c : ClientCall) (t : Option String) : ClientCall :=
  match c with
  | .authenticate surl app email pw _ => .authenticate surl app email pw t
  | .createInitialUser surl email pw ut fn ln => .createInitialUser surl email pw ut fn ln
  | .createBroadcast surl app b auto _ => .createBroadcast surl app b auto t
  | .fetchBroadcasts surl app o s opts _ => .fetchBroadcasts surl app o s opts t
  | .getBroadcast surl app sid _ => .getBroadcast surl app sid t
  | .updateBroadcast surl app sid b _ => .updateBroadcast surl app sid b t
  | .deleteBroadcast surl app sid del _ => .deleteBroadcast surl app sid del t
  | .getBroadcastCount surl app _ => .getBroadcastCount surl app t
  | .getSettings surl app _ => .getSettings surl app t
  | .updateSettings surl app s _ => .updateSettings surl app s t
  | .setMp4RecordingEnabled surl app e _ => .setMp4RecordingEnabled surl app e t
  | .getEncoderSettings surl app _ => .getEncoderSettings surl app t
  | .addEncoderBitrate surl app h v a f _ => .addEncoderBitrate surl app h v a f t
  | .removeEncoderBitrate surl app h _ => .removeEncoderBitrate surl app h t
  | .getAllEncoderBitrates surl app _ => .getAllEncoderBitrates surl app t
  | .updateEncoderBitrate surl app h v a f _ => .updateEncoderBitrate surl app h v a f t
  | .setStreamRecording surl app sid e rt rh fn _ =>
      .setStreamRecording surl app sid e rt rh fn t
  | .enableRecording surl app sid opts _ => .enableRecording surl app sid opts t
  | .disableRecording surl app sid _ => .disableRecording surl app sid t
  | .getVodList surl app o s opts _ => .getVodList surl app o s opts t
  | .getVodCount surl app _ => .getVodCount surl app t
  | .getVodCountBySearch surl app se _ => .getVodCountBySearch surl app se t
  | .getVod surl app vid _ => .getVod surl app vid t
  | .deleteVod surl app vid _ => .deleteVod surl app vid t
  | .deleteVods surl app vids _ => .deleteVods surl app vids t
  | .unlinkVodDirectory surl app dir _ => .unlinkVodDirectory surl app dir t
  | .uploadVod surl app f n md _ => .uploadVod surl app f n md t
  | .importVodDirectory surl app dir _ => .importVodDirectory surl app dir t
  | .importVodsToStalker surl app _ => .importVodsToStalker surl app t

/-- The calls that read or write the application settings: `getSettings`,
`updateSettings`, and the helpers delegating to them.  Only these forward the
token to `buildHeaders`. -/
def isSettingsCall : ClientCall → Bool
  | .getSettings _ _ _ => true
  | .updateSettings _ _ _ _ => true
  | .setMp4RecordingEnabled _ _ _ _ => true
  | .getEncoderSettings _ _ _ => true
  | .addEncoderBitrate _ _ _ _ _ _ _ => true
  | .removeEncoderBitrate _ _ _ _ => true
  | .getAllEncoderBitrates _ _ _ => true
  | .updateEncoderBitrate _ _ _ _ _ _ _ => true
  | _ => false

/-- Whether a call is `uploadVod`, the one method whose fetch options carry no
headers object. -/
def isUploadVod : ClientCall → Bool
  | .uploadVod _ _ _ _ _ _ => true
  | _ => false

/-- Meaning of `response.ok` in the Fetch API: the HTTP status lies in the
2xx range. -/
def respOk (status : Nat) : Bool :=
  decide (200 ≤ status) && decide (status ≤ 299)

/-- JavaScript `m || default` on the optional `message` field of a parsed
error body: a missing or empty message falls back to the default text. -/
def jsOrElse (m : Option String) (dflt : String) : String :=
  match m with
  | none => dflt
  | some s => if s == "" then dflt else s

/-- Response handling of `getBroadcast`: 2xx succeeds; a 404 throws a message
naming the stream; any other non-2xx throws the generic HTTP-status message. -/
def getBroadcastOutcome (streamId : String) (status : Nat) : Except String Unit :=
  if respOk status then .ok ()
  else .error (if status == 404 then "Broadcast not found: " ++ streamId
    else "Failed to get broadcast (HTTP " ++ toString status ++ ")")

/-- Response handling of `createBroadcast`: on non-2xx the body is parsed and
`error?.message || generic` is thrown.  `message` is the parsed body's
`message` field (`none` when absent). -/
def createBroadcastOutcome (status : Nat) (message : Option String) :
    Except String Unit :=
  if respOk status then .ok ()
  else .error (jsOrElse message
    ("Failed to create broadcast (HTTP " ++ toString status ++ ")"))

end AntMediaClient

namespace AntMediaClient

/-- A string starting with the literal prefix of the not-found message differs
from one starting with the generic-failure prefix: their first characters
differ. -/
theorem notFound_ne_generic_getBroadcast (sid : String) (status : Nat) :
    "Broadcast not found: " ++ sid ≠
      "Failed to get broadcast (HTTP " ++ toString status ++ ")" := by
  intro h
  have h2 := congrArg (fun s => s.data.head?) h
  simp only [] at h2
  rw [show ("Broadcast not found: " ++ sid).data.head? = some 'B' by
        rw [String.data_append]; rfl,
      show ("Failed to get broadcast (HTTP " ++ toString status ++ ")").data.head?
          = some 'F' by rw [String.data_append, String.data_append]; rfl] at h2
  simp at h2

/-- C1: `getBroadcast` surfaces a 404 as the distinct message
`Broadcast not found: {streamId}`, naming the missing stream; every other
non-2xx status yields the generic `Failed to get broadcast (HTTP {status})`
message; and no not-found message ever coincides with a generic message, so
the caller can distinguish the two failure outcomes. -/
theorem getBroadcast_notFound_distinct (streamId : String) (status : Nat) :
    getBroadcastOutcome streamId 404 =
      .error ("Broadcast not found: " ++ streamId) ∧
    (respOk status = false → status ≠ 404 →
      getBroadcastOutcome streamId status =
        .error ("Failed to get broadcast (HTTP " ++ toString status ++ ")")) ∧
    (∀ (sid : String) (st : Nat),
      "Broadcast not found: " ++ sid ≠
        "Failed to get broadcast (HTTP " ++ toString st ++ ")") := by
  refine ⟨?_, ?_, fun sid st => notFound_ne_generic_getBroadcast sid st⟩
  · simp [getBroadcastOutcome, respOk]
  · intro hok h404
    simp [getBroadcastOutcome, hok, h404]

/-- Witness for C1 at a concrete non-404 failing status. -/
theorem getBroadcast_notFound_distinct_witness :
    getBroadcastOutcome "s1" 500 =
      .error ("Failed to get broadcast (HTTP " ++ toString 500 ++ ")") :=
  (getBroadcast_notFound_distinct "s1" 500).2.1 (by decide) (by decide)

/-- C5 counterexample: a non-2xx `createBroadcast` response whose body carries
the present-but-empty `message` field does NOT surface that field; the thrown
message is the generic text, not the body's `message` value. -/
theorem createBroadcast_emptyMessage_counterexample :
    createBroadcastOutcome 500 (some "") =
      .error "Failed to create broadcast (HTTP 500)" ∧
    ("Failed to create broadcast (HTTP 500)" : String) ≠ "" := by
  exact ⟨rfl, by decide⟩

/-- C5 (amended): on a non-2xx `createBroadcast` response the failure carries
the body's `message` field when it is present and non-empty (JS-truthy), and
otherwise the generic `Failed to create broadcast (HTTP {status})` text; these
are the only failure shapes produced from a parsed non-2xx response. -/
theorem createBroadcast_failure_message (status : Nat) (message : Option String) :
    (respOk status = false → ∀ m, message = some m → m ≠ "" →
      createBroadcastOutcome status message = .error m) ∧
    (respOk status = false → jsTruthy message = false →
      createBroadcastOutcome status message =
        .error ("Failed to create broadcast (HTTP " ++ toString status ++ ")")) := by
  constructor
  · intro hok m hm hne
    subst hm
    simp [createBroadcastOutcome, hok, jsOrElse, hne]
  · intro hok hfal
    cases message with
    | none => simp [createBroadcastOutcome, hok, jsOrElse]
    | some s =>
      simp [jsTruthy] at hfal
      simp [createBroadcastOutcome, hok, jsOrElse, hfal]

/-- Witness for C5 at a concrete truthy server message. -/
theorem createBroadcast_failure_message_witness :
    createBroadcastOutcome 500 (some "oops") = .error "oops" :=
  (createBroadcast_failure_message 500 (some "oops")).1 (by decide) "oops" rfl
    (by decide)

/-- C9: `deleteBroadcast` appends `deleteSubtracks=true` exactly when the flag
is true; with the flag false the query string carries no `deleteSubtracks`
parameter at all. -/
theorem deleteBroadcast_subtracks_flag (serverUrl appName streamId : String)
    (deleteSubtracks : Bool) :
    ((deleteBroadcastRequest serverUrl appName streamId deleteSubtracks).query
      = if deleteSubtracks then [("deleteSubtracks", "true")] else []) ∧
    ("deleteSubtracks" ∈
        ((deleteBroadcastRequest serverUrl appName streamId deleteSubtracks).query.map
          Prod.fst)
      ↔ deleteSubtracks = true) := by
  cases deleteSubtracks <;> simp [deleteBroadcastRequest]

/-- C10: a fetched settings object with no `encoderSettings` field is read as
the empty list: `getEncoderSettings` and its alias `getAllEncoderBitrates`
return `[]` (not an error), and `addEncoderBitrate`, `removeEncoderBitrate`
and `updateEncoderBitrate` issue exactly the requests they would issue on an
explicit empty list. -/
theorem encoderSettings_missing_is_empty (serverUrl appName : String)
    (height videoBitrate audioBitrate : Nat) (forceEncode : Bool)
    (jwtToken : Option String) :
    getEncoderSettingsResult { encoderSettings := none } = [] ∧
    getAllEncoderBitratesResult { encoderSettings := none } = [] ∧
    requestsOf (.addEncoderBitrate serverUrl appName height videoBitrate
        audioBitrate forceEncode jwtToken) { encoderSettings := none }
      = requestsOf (.addEncoderBitrate serverUrl appName height videoBitrate
        audioBitrate forceEncode jwtToken) { encoderSettings := some [] } ∧
    requestsOf (.removeEncoderBitrate serverUrl appName height jwtToken)
        { encoderSettings := none }
      = requestsOf (.removeEncoderBitrate serverUrl appName height jwtToken)
        { encoderSettings := some [] } ∧
    requestsOf (.updateEncoderBitrate serverUrl appName height videoBitrate
        audioBitrate forceEncode jwtToken) { encoderSettings := none }
      = requestsOf (.updateEncoderBitrate serverUrl appName height videoBitrate
        audioBitrate forceEncode jwtToken) { encoderSettings := some [] } :=
  ⟨rfl, rfl, rfl, rfl, rfl⟩

/-- Unfolding of `findIdx?` with the source's zero start, one cons cell. -/
theorem findIdx?_cons_zero {α : Type} (p : α → Bool) (x : α) (xs : List α) :
    List.findIdx? p (x :: xs) = if p x then some 0 else
      (List.findIdx? p xs).map (· + 1) := by
  rw [List.findIdx?_cons]
  cases p x <;> simp [List.findIdx?_succ]

/-- The function `addEncoderBitrateLocal` skips over a head profile of a
different height. -/
theorem addEncoderBitrateLocal_cons_of_neg (e : EncoderSetting)
    (tl : List EncoderSetting) (h v a : Nat) (f : Bool)
    (he : (e.height == h) = false) :
    addEncoderBitrateLocal (e :: tl) h v a f =
      e :: addEncoderBitrateLocal tl h v a f := by
  unfold addEncoderBitrateLocal
  rw [findIdx?_cons_zero, he]
  simp only [Bool.false_eq_true, if_false]
  cases List.findIdx? (fun x => x.height == h) tl <;> rfl

/-- The function `addEncoderBitrateLocal` replaces a head profile of the same
height. -/
theorem addEncoderBitrateLocal_cons_of_pos (e : EncoderSetting)
    (tl : List EncoderSetting) (h v a : Nat) (f : Bool)
    (he : (e.height == h) = true) :
    addEncoderBitrateLocal (e :: tl) h v a f = profileOf h v a f :: tl := by
  unfold addEncoderBitrateLocal
  rw [findIdx?_cons_zero, he]
  rfl

/-- After an add on a list holding at most one profile of the target height,
filtering by that height yields exactly the newly written profile. -/
theorem filter_addEncoderBitrateLocal (es : List EncoderSetting)
    (h v a : Nat) (f : Bool)
    (hcount : es.countP (fun e => e.height == h) ≤ 1) :
    (addEncoderBitrateLocal es h v a f).filter (fun e => e.height == h) =
      [profileOf h v a f] := by
  induction es with
  | nil => simp [addEncoderBitrateLocal, profileOf]
  | cons e tl ih =>
    by_cases hp : (e.height == h) = true
    · rw [addEncoderBitrateLocal_cons_of_pos e tl h v a f hp]
      have h0 : tl.countP (fun e => e.height == h) = 0 := by
        rw [List.countP_cons, hp] at hcount
        simpa using hcount
      have hnil : tl.filter (fun e => e.height == h) = [] := by
        rw [List.filter_eq_nil_iff]
        intro x hx
        by_contra hc
        have := List.countP_eq_zero.mp h0 x hx
        simp_all
      simp [List.filter_cons, profileOf, hnil]
    · have hp' : (e.height == h) = false := by simpa using hp
      rw [addEncoderBitrateLocal_cons_of_neg e tl h v a f hp']
      rw [List.filter_cons_of_neg (by simp [hp'])]
      apply ih
      rw [List.countP_cons, hp'] at hcount
      simpa using hcount

/-- C2: `addEncoderBitrate` replaces in place when a profile with the target
height exists (at the index found by `findIndex`) and appends otherwise; in
consequence, on settings keyed uniquely by height, adding height 720 and then
adding height 720 with videoBitrate 3000 leaves exactly one profile for height
720, with videoBitrate 3000, in the settings PUT back by the second call. -/
theorem addEncoderBitrate_replace_or_append (es : List EncoderSetting)
    (h v a : Nat) (f : Bool) (s0 : AppSettings) (v1 a1 a2 : Nat) (f1 f2 : Bool) :
    ((∃ e ∈ es, e.height = h) → ∃ i,
      es.findIdx? (fun e => e.height == h) = some i ∧
      addEncoderBitrateLocal es h v a f = es.set i (profileOf h v a f)) ∧
    ((∀ e ∈ es, e.height ≠ h) →
      addEncoderBitrateLocal es h v a f = es ++ [profileOf h v a f]) ∧
    ((esOrEmpty s0).countP (fun e => e.height == 720) ≤ 1 →
      (esOrEmpty (runAddEncoderBitrate
          (runAddEncoderBitrate s0 720 v1 a1 f1) 720 3000 a2 f2)).filter
        (fun e => e.height == 720) = [profileOf 720 3000 a2 f2]) := by
  refine ⟨?_, ?_, ?_⟩
  · rintro ⟨e, he, hh⟩
    cases hidx : es.findIdx? (fun e => e.height == h) with
    | none =>
      exact absurd (List.findIdx?_eq_none_iff.mp hidx e he) (by simp [hh])
    | some i =>
      exact ⟨i, rfl, by unfold addEncoderBitrateLocal; rw [hidx]⟩
  · intro hnone
    unfold addEncoderBitrateLocal
    rw [List.findIdx?_eq_none_iff.mpr (fun x hx => by simp [hnone x hx])]
  · intro hcount
    have h1 := filter_addEncoderBitrateLocal (esOrEmpty s0) 720 v1 a1 f1 hcount
    have hc1 : (addEncoderBitrateLocal (esOrEmpty s0) 720 v1 a1 f1).countP
        (fun e => e.height == 720) = 1 := by
      rw [List.countP_eq_length_filter, h1]
      rfl
    have h2 := filter_addEncoderBitrateLocal
      (addEncoderBitrateLocal (esOrEmpty s0) 720 v1 a1 f1) 720 3000 a2 f2
      (by rw [hc1])
    exact h2

/-- Witness for C2: a concrete double add at height 720 on initially empty
settings leaves the single profile `{720, 3000, 64, true}`. -/
theorem addEncoderBitrate_replace_or_append_witness :
    (esOrEmpty (runAddEncoderBitrate
        (runAddEncoderBitrate { encoderSettings := some [] } 720 1500 128 false)
        720 3000 64 true)).filter (fun e => e.height == 720)
      = [profileOf 720 3000 64 true] :=
  (addEncoderBitrate_replace_or_append [] 0 0 0 false
    { encoderSettings := some [] } 1500 128 64 false true).2.2 (by decide)

/-- C3: `updateEncoderBitrate` on a settings state with no profile of the
target height throws the `not found` message and issues no settings PUT: its
only request is the settings GET, and the server-side settings are unchanged. -/
theorem updateEncoderBitrate_missing_no_write (srv : AppSettings)
    (height videoBitrate audioBitrate : Nat) (forceEncode : Bool)
    (serverUrl appName : String) (jwtToken : Option String)
    (hmiss : ∀ e ∈ esOrEmpty srv, e.height ≠ height) :
    runUpdateEncoderBitrate srv height videoBitrate audioBitrate forceEncode =
      (srv, .error ("Encoder bitrate profile for height " ++ toString height
        ++ " not found")) ∧
    requestsOf (.updateEncoderBitrate serverUrl appName height videoBitrate
        audioBitrate forceEncode jwtToken) srv
      = [getSettingsRequest serverUrl appName jwtToken] := by
  have hloc : updateEncoderBitrateLocal (esOrEmpty srv) height videoBitrate
      audioBitrate forceEncode = .error ("Encoder bitrate profile for height "
        ++ toString height ++ " not found") := by
    unfold updateEncoderBitrateLocal
    rw [List.findIdx?_eq_none_iff.mpr (fun x hx => by simp [hmiss x hx])]
  constructor
  · unfold runUpdateEncoderBitrate
    rw [hloc]
  · simp only [requestsOf]
    rw [hloc]

/-- Witness for C3 at concrete empty settings and height 1080. -/
theorem updateEncoderBitrate_missing_no_write_witness :
    runUpdateEncoderBitrate { encoderSettings := some [] } 1080 4000 128 false =
      ({ encoderSettings := some [] },
        .error ("Encoder bitrate profile for height " ++ toString 1080
          ++ " not found")) :=
  (updateEncoderBitrate_missing_no_write { encoderSettings := some [] }
    1080 4000 128 false "http://server" "app" none (by decide)).1

/-- C7: two `addEncoderBitrate` calls with distinct fresh heights that both
read the same initial settings snapshot before either writes: the last PUT
wins, so the final settings hold exactly the second writer's local result —
the first writer's profile is absent, the second writer's profile present. -/
theorem addEncoderBitrate_lost_update (s0 : AppSettings)
    (h1 h2 v1 a1 v2 a2 : Nat) (f1 f2 : Bool) (hne : h1 ≠ h2)
    (habs1 : ∀ e ∈ esOrEmpty s0, e.height ≠ h1)
    (habs2 : ∀ e ∈ esOrEmpty s0, e.height ≠ h2) :
    esOrEmpty (applySettingsUpdate
        (applySettingsUpdate s0
          (.encoder (addEncoderBitrateLocal (esOrEmpty s0) h1 v1 a1 f1)))
        (.encoder (addEncoderBitrateLocal (esOrEmpty s0) h2 v2 a2 f2)))
      = addEncoderBitrateLocal (esOrEmpty s0) h2 v2 a2 f2 ∧
    (∀ e ∈ esOrEmpty (applySettingsUpdate
        (applySettingsUpdate s0
          (.encoder (addEncoderBitrateLocal (esOrEmpty s0) h1 v1 a1 f1)))
        (.encoder (addEncoderBitrateLocal (esOrEmpty s0) h2 v2 a2 f2))),
      e.height ≠ h1) ∧
    profileOf h2 v2 a2 f2 ∈ esOrEmpty (applySettingsUpdate
        (applySettingsUpdate s0
          (.encoder (addEncoderBitrateLocal (esOrEmpty s0) h1 v1 a1 f1)))
        (.encoder (addEncoderBitrateLocal (esOrEmpty s0) h2 v2 a2 f2))) := by
  have happend : addEncoderBitrateLocal (esOrEmpty s0) h2 v2 a2 f2 =
      esOrEmpty s0 ++ [profileOf h2 v2 a2 f2] := by
    unfold addEncoderBitrateLocal
    rw [List.findIdx?_eq_none_iff.mpr (fun x hx => by simp [habs2 x hx])]
  have hfinal : esOrEmpty (applySettingsUpdate
      (applySettingsUpdate s0
        (.encoder (addEncoderBitrateLocal (esOrEmpty s0) h1 v1 a1 f1)))
      (.encoder (addEncoderBitrateLocal (esOrEmpty s0) h2 v2 a2 f2)))
      = addEncoderBitrateLocal (esOrEmpty s0) h2 v2 a2 f2 := rfl
  refine ⟨hfinal, ?_, ?_⟩
  · intro e he
    rw [hfinal, happend] at he
    rcases List.mem_append.mp he with hmem | hmem
    · exact habs1 e hmem
    · rw [List.mem_singleton.mp hmem]
      simpa [profileOf] using fun hc => hne hc.symm
  · rw [hfinal, happend]
    exact List.mem_append_right _ (List.mem_singleton.mpr rfl)

/-- Witness for C7: concrete interleaving of adds at heights 480 and 720 on
initially empty settings — the final settings hold only the 720 profile. -/
theorem addEncoderBitrate_lost_update_witness :
    esOrEmpty (applySettingsUpdate
        (applySettingsUpdate { encoderSettings := some [] }
          (.encoder (addEncoderBitrateLocal
            (esOrEmpty { encoderSettings := some [] }) 480 800 64 false)))
        (.encoder (addEncoderBitrateLocal
          (esOrEmpty { encoderSettings := some [] }) 720 2500 128 false)))
      = addEncoderBitrateLocal (esOrEmpty { encoderSettings := some [] })
          720 2500 128 false :=
  (addEncoderBitrate_lost_update { encoderSettings := some [] }
    480 720 800 64 2500 128 false false (by decide) (by decide) (by decide)).1

/-- A key occurs in its own optional parameter exactly when the value is
JS-truthy. -/
theorem key_mem_optParam_iff (k : String) (o : Option String) :
    k ∈ (optParam k o).map Prod.fst ↔ jsTruthy o = true := by
  cases o with
  | none => simp [optParam, jsTruthy]
  | some s =>
    by_cases hs : (s == "") = true
    · simp [optParam, jsTruthy, hs]
    · have hs' : (s == "") = false := by simpa using hs
      simp [optParam, jsTruthy, hs']

/-- A different key never occurs in an optional parameter's output. -/
theorem ne_key_not_mem_optParam (k k' : String) (o : Option String)
    (hne : k' ≠ k) : k' ∉ (optParam k o).map Prod.fst := by
  cases o with
  | none => simp [optParam]
  | some s =>
    by_cases hs : (s == "") = true
    · simp [optParam, hs]
    · have hs' : (s == "") = false := by simpa using hs
      simp [optParam, hs', hne]

/-- Values emitted by an optional parameter are never the empty string. -/
theorem mem_optParam_ne_empty (k k' v : String) (o : Option String)
    (hv : (k', v) ∈ optParam k o) : v ≠ "" := by
  cases o with
  | none => simp [optParam] at hv
  | some s =>
    by_cases hs : (s == "") = true
    · simp [optParam, hs] at hv
    · have hs' : (s == "") = false := by simpa using hs
      simp [optParam, hs'] at hv
      rw [hv.2]
      simpa using hs'

/-- C4 counterexample: an explicitly supplied but empty `search` filter is
dropped from the query string entirely — the request built for
`options = {search: ""}` has an empty query, so the supplied filter does not
appear. -/
theorem fetchBroadcasts_emptyFilter_counterexample :
    (fetchBroadcastsRequest "http://server" "app" 0 50
      (some { type_by := none, sort_by := none, order_by := none,
              search := some "" })).query = [] := rfl

/-- C4 (amended): `fetchBroadcasts` builds a URL whose path ends in
`.../broadcasts/list/{offset}/{size}`, and each filter among `type_by`,
`sort_by`, `order_by`, `search` appears in the query string exactly when it is
supplied with a JS-truthy (non-empty) value; no filter is ever sent with an
empty value. -/
theorem fetchBroadcasts_url (serverUrl appName : String) (offset size : Nat)
    (options : Option FetchOptions) (hsize : size ≤ 50) :
    (∃ p, (fetchBroadcastsRequest serverUrl appName offset size options).urlBase
      = p ++ "/rest/v2/broadcasts/list/" ++ toString offset ++ "/"
        ++ toString size) ∧
    ("type_by" ∈ (fetchBroadcastsRequest serverUrl appName offset size
        options).query.map Prod.fst
      ↔ jsTruthy (options.bind FetchOptions.type_by) = true) ∧
    ("sort_by" ∈ (fetchBroadcastsRequest serverUrl appName offset size
        options).query.map Prod.fst
      ↔ jsTruthy (options.bind FetchOptions.sort_by) = true) ∧
    ("order_by" ∈ (fetchBroadcastsRequest serverUrl appName offset size
        options).query.map Prod.fst
      ↔ jsTruthy (options.bind FetchOptions.order_by) = true) ∧
    ("search" ∈ (fetchBroadcastsRequest serverUrl appName offset size
        options).query.map Prod.fst
      ↔ jsTruthy (options.bind FetchOptions.search) = true) ∧
    (∀ k v, (k, v) ∈ (fetchBroadcastsRequest serverUrl appName offset size
        options).query → v ≠ "") := by
  refine ⟨⟨serverUrl ++ "/" ++ appName, rfl⟩, ?_, ?_, ?_, ?_, ?_⟩
  · constructor
    · intro h
      simp only [fetchBroadcastsRequest, List.map_append, List.mem_append] at h
      rcases h with (((h | h) | h) | h)
      · exact (key_mem_optParam_iff _ _).mp h
      · exact absurd h (ne_key_not_mem_optParam _ _ _ (by decide))
      · exact absurd h (ne_key_not_mem_optParam _ _ _ (by decide))
      · exact absurd h (ne_key_not_mem_optParam _ _ _ (by decide))
    · intro h
      simp only [fetchBroadcastsRequest, List.map_append, List.mem_append]
      exact Or.inl (Or.inl (Or.inl ((key_mem_optParam_iff _ _).mpr h)))
  · constructor
    · intro h
      simp only [fetchBroadcastsRequest, List.map_append, List.mem_append] at h
      rcases h with (((h | h) | h) | h)
      · exact absurd h (ne_key_not_mem_optParam _ _ _ (by decide))
      · exact (key_mem_optParam_iff _ _).mp h
      · exact absurd h (ne_key_not_mem_optParam _ _ _ (by decide))
      · exact absurd h (ne_key_not_mem_optParam _ _ _ (by decide))
    · intro h
      simp only [fetchBroadcastsRequest, List.map_append, List.mem_append]
      exact Or.inl (Or.inl (Or.inr ((key_mem_optParam_iff _ _).mpr h)))
  · constructor
    · intro h
      simp only [fetchBroadcastsRequest, List.map_append, List.mem_append] at h
      rcases h with (((h | h) | h) | h)
      · exact absurd h (ne_key_not_mem_optParam _ _ _ (by decide))
      · exact absurd h (ne_key_not_mem_optParam _ _ _ (by decide))
      · exact (key_mem_optParam_iff _ _).mp h
      · exact absurd h (ne_key_not_mem_optParam _ _ _ (by decide))
    · intro h
      simp only [fetchBroadcastsRequest, List.map_append, List.mem_append]
      exact Or.inl (Or.inr ((key_mem_optParam_iff _ _).mpr h))
  · constructor
    · intro h
      simp only [fetchBroadcastsRequest, List.map_append, List.mem_append] at h
      rcases h with (((h | h) | h) | h)
      · exact absurd h (ne_key_not_mem_optParam _ _ _ (by decide))
      · exact absurd h (ne_key_not_mem_optParam _ _ _ (by decide))
      · exact absurd h (ne_key_not_mem_optParam _ _ _ (by decide))
      · exact (key_mem_optParam_iff _ _).mp h
    · intro h
      simp only [fetchBroadcastsRequest, List.map_append, List.mem_append]
      exact Or.inr ((key_mem_optParam_iff _ _).mpr h)
  · intro k v hv
    simp only [fetchBroadcastsRequest, List.mem_append] at hv
    rcases hv with (((h | h) | h) | h) <;>
      exact mem_optParam_ne_empty _ _ _ _ h

/-- Witness for C4 at a concrete call with only `sort_by` supplied. -/
theorem fetchBroadcasts_url_witness :
    "sort_by" ∈ (fetchBroadcastsRequest "http://server" "app" 0 50
      (some { type_by := none, sort_by := some "name", order_by := none,
              search := none })).query.map Prod.fst :=
  ((fetchBroadcasts_url "http://server" "app" 0 50
    (some { type_by := none, sort_by := some "name", order_by := none,
            search := none }) (by decide)).2.2.1).mpr (by decide)

/-- Headers built by `buildHeaders` always carry the JSON content type. -/
theorem contentType_mem_buildHeaders (o : Option String) :
    ("Content-Type", "application/json") ∈ buildHeaders o := by
  cases o with
  | none => simp [buildHeaders]
  | some t =>
    by_cases ht : (t == "") = true
    · simp [buildHeaders, ht]
    · have ht' : (t == "") = false := by simpa using ht
      simp [buildHeaders, ht']

/-- The function `buildHeaders` emits a `ProxyAuthorization` header exactly
when its token
argument is JS-truthy. -/
theorem proxyAuth_key_buildHeaders (o : Option String) :
    "ProxyAuthorization" ∈ (buildHeaders o).map Prod.fst ↔ jsTruthy o = true := by
  cases o with
  | none => decide
  | some t =>
    by_cases ht : (t == "") = true
    · rw [show t = "" from by simpa using ht]
      decide
    · have ht' : (t == "") = false := by simpa using ht
      simp [buildHeaders, ht', jsTruthy]

/-- When the token is truthy, `buildHeaders` carries it as the value of the
`ProxyAuthorization` header. -/
theorem proxyAuth_val_buildHeaders (t : String) (ht : (t == "") = false) :
    ("ProxyAuthorization", t) ∈ buildHeaders (some t) := by
  simp [buildHeaders, ht]

/-- The headers of every request a call issues: empty for `uploadVod`, built
from the caller's token for the settings calls, built from no token for all
other calls. -/
theorem headers_requestsOf (c : ClientCall) (srv : AppSettings) (r : Request)
    (hr : r ∈ requestsOf c srv) :
    r.headers = if isUploadVod c then []
      else buildHeaders (if isSettingsCall c then tokenOf c else none) := by
  cases c
  case updateEncoderBitrate surl app h v a f jwt =>
    simp only [requestsOf] at hr
    cases hloc : updateEncoderBitrateLocal (esOrEmpty srv) h v a f with
    | error e =>
      rw [hloc] at hr
      simp only [List.mem_cons, List.not_mem_nil, or_false] at hr
      subst hr
      rfl
    | ok es =>
      rw [hloc] at hr
      simp only [List.mem_cons, List.not_mem_nil, or_false] at hr
      rcases hr with rfl | rfl <;> rfl
  all_goals
    simp only [requestsOf, List.mem_cons, List.not_mem_nil, or_false] at hr
  all_goals
    rcases hr with rfl | rfl <;> rfl

/-- The `uploadVod` method is not one of the settings calls. -/
theorem isSettingsCall_of_uploadVod (c : ClientCall)
    (h : isUploadVod c = true) : isSettingsCall c = false := by
  cases c <;> first | rfl | exact Bool.noConfusion h

/-- C6 counterexample: `uploadVod` issues a request carrying no
`Content-Type: application/json` header (its fetch options hold no headers
object at all), so not every client request carries that header; and
`getSettings` called with the supplied-but-empty token attaches no
`ProxyAuthorization` header. -/
theorem uploadVod_headers_counterexample :
    uploadVodRequest "http://server" "app" "file.mp4" "clip" none ∈
      requestsOf (.uploadVod "http://server" "app" "file.mp4" "clip" none
        (some "token")) { encoderSettings := none } ∧
    ("Content-Type", "application/json") ∉
      (uploadVodRequest "http://server" "app" "file.mp4" "clip" none).headers ∧
    "ProxyAuthorization" ∉
      (getSettingsRequest "http://server" "app" (some "")).headers.map Prod.fst := by
  refine ⟨by decide, by decide, by decide⟩

/-- C6 (amended): every request issued by any client method other than
`uploadVod` (which posts a multipart form with no explicit headers) carries
`Content-Type: application/json`; the `ProxyAuthorization` header appears
exactly on the requests of the application-settings read/write calls whose
token argument is supplied and non-empty, and there it carries that token. -/
theorem requests_headers_contract (c : ClientCall) (srv : AppSettings)
    (r : Request) (hr : r ∈ requestsOf c srv) :
    (isUploadVod c = false → ("Content-Type", "application/json") ∈ r.headers) ∧
    ("ProxyAuthorization" ∈ r.headers.map Prod.fst ↔
      isSettingsCall c = true ∧ jsTruthy (tokenOf c) = true) ∧
    (∀ t, tokenOf c = some t → (t == "") = false → isSettingsCall c = true →
      ("ProxyAuthorization", t) ∈ r.headers) := by
  have hh := headers_requestsOf c srv r hr
  by_cases hup : isUploadVod c = true
  · have hset := isSettingsCall_of_uploadVod c hup
    rw [hup, if_pos rfl] at hh
    refine ⟨fun hfalse => absurd hup (by simp [hfalse]), ?_, ?_⟩
    · rw [hh]
      simp [hset]
    · intro t _ _ hsc
      rw [hsc] at hset
      exact Bool.noConfusion hset
  · have hup' : isUploadVod c = false := by simpa using hup
    rw [hup'] at hh
    simp only [Bool.false_eq_true, if_false] at hh
    by_cases hsc : isSettingsCall c = true
    · rw [hsc, if_pos rfl] at hh
      refine ⟨fun _ => hh ▸ contentType_mem_buildHeaders _, ?_, ?_⟩
      · rw [hh, proxyAuth_key_buildHeaders]
        simp [hsc]
      · intro t ht htne _
        rw [hh, ht]
        exact proxyAuth_val_buildHeaders t htne
    · have hsc' : isSettingsCall c = false := by simpa using hsc
      rw [hsc'] at hh
      simp only [Bool.false_eq_true, if_false] at hh
      refine ⟨fun _ => hh ▸ contentType_mem_buildHeaders _, ?_,
        fun t _ _ hcon => absurd hcon hsc⟩
      rw [hh, proxyAuth_key_buildHeaders]
      simp [hsc', jsTruthy]

/-- Witness for C6's amended contract on a concrete `getSettings` call with a
non-empty token. -/
theorem requests_headers_contract_witness :
    ("Content-Type", "application/json") ∈
      (getSettingsRequest "http://server" "app" (some "tok")).headers :=
  (requests_headers_contract (.getSettings "http://server" "app" (some "tok"))
    { encoderSettings := none }
    (getSettingsRequest "http://server" "app" (some "tok")) (by decide)).1
    (by decide)

/-- C8: for every client method that is not one of the application-settings
read/write calls (nor their delegating helpers), the issued requests are
independent of the `jwtToken` argument — replacing the token leaves the
request sequence unchanged — and no issued request carries a
`ProxyAuthorization` header. -/
theorem token_independence (c : ClientCall) (t : Option String)
    (srv : AppSettings) (hns : isSettingsCall c = false) :
    requestsOf (withToken c t) srv = requestsOf c srv ∧
    (∀ r ∈ requestsOf c srv, "ProxyAuthorization" ∉ r.headers.map Prod.fst) := by
  constructor
  · cases c <;> first | rfl | exact Bool.noConfusion hns
  · intro r hr
    have hh := headers_requestsOf c srv r hr
    rw [hns] at hh
    simp only [Bool.false_eq_true, if_false] at hh
    by_cases hup : isUploadVod c = true
    · rw [hup, if_pos rfl] at hh
      rw [hh]
      simp
    · have hup' : isUploadVod c = false := by simpa using hup
      rw [hup'] at hh
      simp only [Bool.false_eq_true, if_false] at hh
      rw [hh]
      intro hmem
      have := (proxyAuth_key_buildHeaders none).mp hmem
      exact Bool.noConfusion this

/-- Witness for C8: a concrete `authenticate` call issues the same request
with and without a supplied token. -/
theorem token_independence_witness :
    requestsOf (withToken (.authenticate "http://server" "app" "a@b.c" "pw" none)
        (some "tok")) { encoderSettings := none }
      = requestsOf (.authenticate "http://server" "app" "a@b.c" "pw" none)
        { encoderSettings := none } :=
  (token_independence (.authenticate "http://server" "app" "a@b.c" "pw" none)
    (some "tok") { encoderSettings := none } (by decide)).1

end AntMediaClient
